import Mathlib

/-!
Verification development for the batch analytics core of src/app.py
(QualSteam stable-process dashboard).

Modelling conventions:
* a numeric table cell is `Option ℚ` (`none` models a pandas NaN / missing value);
* a Timestamp is an absolute instant measured in seconds, modelled as `ℚ`
  (the loader's to_datetime parsing is assumed to have succeeded, which is
  the only case the analytics code exercises);
* pandas statistics skip missing values (skipna) and return NaN on empty
  input; `Option ℚ` with `none` for NaN mirrors that;
* Python format strings are modelled by an exact fixed-point renderer on ℚ
  (floating-point representation error is not modelled; the strings produced
  agree with CPython on all non-tie inputs used here).
-/

/-- A numeric cell of the table: a finite value or missing (NaN). -/
abbrev Cell := Option ℚ

/-- The tracked process variables of the data model (columns of the CSV
besides Timestamp and batch_id). -/
inductive PVar where
  | processTemp
  | processTempSP
  | pressureSP
  | inletSteamPressure
  | outletSteamPressure
  | steamFlowRate
  | qualSteamValveOpening
deriving DecidableEq, Repr

/-- One row of the typed table produced by the loader: a timestamp (seconds),
a batch identifier, and one cell per tracked variable. -/
structure Reading where
  timestamp : ℚ
  batch_id : ℤ
  processTemp : Cell
  processTempSP : Cell
  pressureSP : Cell
  inletSteamPressure : Cell
  outletSteamPressure : Cell
  steamFlowRate : Cell
  qualSteamValveOpening : Cell
deriving DecidableEq, Repr

/-- Column access on a typed row. -/
def Reading.val (r : Reading) : PVar → Cell
  | .processTemp => r.processTemp
  | .processTempSP => r.processTempSP
  | .pressureSP => r.pressureSP
  | .inletSteamPressure => r.inletSteamPressure
  | .outletSteamPressure => r.outletSteamPressure
  | .steamFlowRate => r.steamFlowRate
  | .qualSteamValveOpening => r.qualSteamValveOpening

/-- The typed table: an ordered sequence of readings, in source-row order. -/
abbrev BatchTable := List Reading

/-! ## Loader (load_data, app.py lines 68-78)

The raw tabular source is modelled at the level load_data observes it:
a list of column names and rows of name-tagged cells. The file system is
an `Option RawFrame` (`none` = the CSV file is absent). Python exceptions
that load_data can encounter are `PyExn`; `load_data` catches exactly
`fileNotFound`, as the Python code catches exactly FileNotFoundError. -/

/-- Python exceptions relevant to the load path. -/
inductive PyExn where
  | fileNotFound
  | keyError (col : String)
deriving DecidableEq, Repr

/-- A raw data frame as read_csv yields it: named columns and rows of
name-tagged parsed cells. -/
structure RawFrame where
  columns : List String
  rows : List (List (String × Cell))
deriving DecidableEq, Repr

/-- Cell lookup inside one raw row. -/
def lookupCell (row : List (String × Cell)) (c : String) : Cell :=
  match row.lookup c with
  | some v => v
  | none => none

/-- Column projection df[c]: raises KeyError when the column is absent. -/
def getColumn (df : RawFrame) (c : String) : Except PyExn (List Cell) :=
  if c ∈ df.columns then .ok (df.rows.map (fun row => lookupCell row c))
  else .error (.keyError c)

/-- Timestamp conversion pd.to_datetime: cells already hold parsed instants
in this model, so the conversion is the identity on the column. -/
def to_datetime (col : List Cell) : List Cell := col

/-- Column assignment df[c] = vals. -/
def setColumn (df : RawFrame) (c : String) (vals : List Cell) : RawFrame :=
  { df with
    rows := (df.rows.zip vals).map
      (fun p => p.1.map (fun cell => if cell.1 = c then (cell.1, p.2) else cell)) }

/-- pd.read_csv: raises FileNotFoundError when the source file is absent. -/
def read_csv (source : Option RawFrame) : Except PyExn RawFrame :=
  match source with
  | none => .error .fileNotFound
  | some df => .ok df

/-- Body of the try block of load_data (app.py lines 73-76): read the csv,
then convert and reassign the Timestamp column; the first raised exception
propagates. -/
def load_data_attempt (source : Option RawFrame) : Except PyExn RawFrame :=
  match read_csv source with
  | .error e => .error e
  | .ok df =>
    match getColumn df "Timestamp" with
    | .error e => .error e
    | .ok ts => .ok (setColumn df "Timestamp" (to_datetime ts))

/-- load_data (app.py lines 68-78): try the load, catch exactly
FileNotFoundError and turn it into None; every other exception escapes. -/
def load_data (source : Option RawFrame) : Except PyExn (Option RawFrame) :=
  match load_data_attempt source with
  | .error .fileNotFound => .ok none
  | .error e => .error e
  | .ok df => .ok (some df)

/-! ## Statistics primitives (pandas Series ops used by calculate_stats)

Each pandas reduction skips missing values (skipna=True, the default) and
yields NaN (`none`) when no valid value remains; Series.std uses ddof=1. -/

/-- The non-missing values of a series, in order. -/
def valids (s : List Cell) : List ℚ :=
  s.filterMap id

/-- Minimum of a list of values, `none` on the empty list. -/
def seriesMin : List ℚ → Option ℚ
  | [] => none
  | x :: xs =>
    match seriesMin xs with
    | none => some x
    | some m => some (min x m)

/-- Maximum of a list of values, `none` on the empty list. -/
def seriesMax : List ℚ → Option ℚ
  | [] => none
  | x :: xs =>
    match seriesMax xs with
    | none => some x
    | some m => some (max x m)

/-- Mean of the valid values (Series.mean): NaN when there are none. -/
def meanVals (v : List ℚ) : Option ℚ :=
  if v.length = 0 then none else some (v.sum / v.length)

/-- Middle element (odd length) or average of the two middle elements
(even length) of an already sorted list; `none` on the empty list. -/
def medianOfSorted (v : List ℚ) : Option ℚ :=
  if v.length = 0 then none
  else if v.length % 2 = 1 then v[v.length / 2]?
  else
    match v[v.length / 2 - 1]?, v[v.length / 2]? with
    | some a, some b => some ((a + b) / 2)
    | _, _ => none

/-- Median of the valid values (Series.median). -/
def medianVals (v : List ℚ) : Option ℚ :=
  medianOfSorted (v.insertionSort (· ≤ ·))

/-- Sample variance of the valid values with ddof = 1 (the square of
Series.std): NaN when fewer than two valid values exist. -/
def varVals (v : List ℚ) : Option ℚ :=
  if v.length ≤ 1 then none
  else
    some ((v.map (fun x => (x - v.sum / v.length) ^ 2)).sum / ((v.length : ℚ) - 1))

/-- Series.mean on a cell series. -/
def pmean (s : List Cell) : Option ℚ := meanVals (valids s)

/-- Series.median on a cell series. -/
def pmedian (s : List Cell) : Option ℚ := medianVals (valids s)

/-- Series.max on a cell series. -/
def pmax (s : List Cell) : Option ℚ := seriesMax (valids s)

/-- Series.min on a cell series. -/
def pmin (s : List Cell) : Option ℚ := seriesMin (valids s)

/-- Square of Series.std on a cell series (sample variance, ddof = 1). -/
def pvar (s : List Cell) : Option ℚ := varVals (valids s)

/-! ## Fixed-point string formatting (Python f-string {x:.2f} / {x:.4f}) -/

/-- Decimal digit string of a natural number, left-padded with zeros to
width k. -/
def natPadded (m : ℕ) (k : ℕ) : String :=
  let s := toString m
  String.mk (List.replicate (k - s.length) '0') ++ s

/-- Render the integer n as a fixed-point decimal with k fractional digits,
reading n as a multiple of 10 ^ (-k). -/
def decimalString (n : ℤ) (k : ℕ) : String :=
  (if n < 0 then "-" else "") ++ toString (n.natAbs / 10 ^ k) ++ "." ++
    natPadded (n.natAbs % 10 ^ k) k

/-- Python format {q:.kf}: round to k decimal places, render fixed-point. -/
def fmtFixed (k : ℕ) (q : ℚ) : String :=
  decimalString (round (q * 10 ^ k)) k

/-- Format a possibly-missing statistic; NaN renders exactly as "nan",
as Python string formatting renders float nan. -/
def fmtCell (k : ℕ) : Option ℚ → String
  | none => "nan"
  | some q => fmtFixed k q

/-- Integer numerator of the square root of v rounded to 4 decimal places:
round(sqrt(v) * 10 ^ 4), computed exactly on ℚ via integer square root. -/
def sqrtTo4 (v : ℚ) : ℤ :=
  ((Nat.sqrt (v * 10 ^ 8 * 4).floor.toNat + 1) / 2 : ℕ)

/-- Format the standard deviation {std:.4f}: square root of the sample
variance, 4 decimal places; NaN renders as "nan". -/
def fmtStd : Option ℚ → String
  | none => "nan"
  | some v => decimalString (sqrtTo4 v) 4

/-- The record calculate_stats returns: five display strings. -/
structure StatsView where
  mean : String
  median : String
  max : String
  min : String
  std : String
deriving DecidableEq, Repr

/-- calculate_stats (app.py lines 80-87): each statistic is computed over
the non-missing values of the series, then formatted to a display string
(2 decimal places; 4 for the standard deviation). -/
def calculate_stats (series : List Cell) : StatsView :=
  { mean := fmtCell 2 (meanVals (valids series))
    median := fmtCell 2 (medianVals (valids series))
    max := fmtCell 2 (seriesMax (valids series))
    min := fmtCell 2 (seriesMin (valids series))
    std := fmtStd (varVals (valids series)) }

/-- The all-undefined statistics record: what calculate_stats yields on a
series with no valid values. -/
def nanStats : StatsView :=
  { mean := "nan", median := "nan", max := "nan", min := "nan", std := "nan" }

/-! ## Analytics engine (main, app.py lines 104-126 and 242-260) -/

/-- Batch restriction (app.py line 119):
batch_data = df[df[batch_id] == selected_batch_id]. -/
def filterBatch (df : BatchTable) (b : ℤ) : BatchTable :=
  df.filter (fun r => r.batch_id == b)

/-- One variable's column over a list of readings, in row order. -/
def colVals (df : BatchTable) (v : PVar) : List Cell :=
  df.map (fun r => r.val v)

/-- The series of one variable within one batch, as the stat cards use it. -/
def batchColumn (df : BatchTable) (b : ℤ) (v : PVar) : List Cell :=
  colVals (filterBatch df b) v

/-- listBatchIds (app.py lines 105-106): df[batch_id].unique() collects the
distinct identifiers; ndarray.sort() orders them ascending (numerically,
identifiers being numeric). -/
def listBatchIds (df : BatchTable) : List ℤ :=
  ((df.map (fun r => r.batch_id)).dedup).insertionSort (· ≤ ·)

/-- The derived per-batch summary: time window, duration in minutes, and
the five statistics records main computes (app.py lines 121-124, 242-260).
Undefined times (pandas NaT, from an empty restriction) are `none`. -/
structure BatchSummary where
  start_time : Option ℚ
  end_time : Option ℚ
  duration_minutes : Option ℚ
  stats_temp : StatsView
  stats_p2 : StatsView
  stats_p1 : StatsView
  stats_flow : StatsView
  stats_valve : StatsView
deriving DecidableEq, Repr

/-- The computation main performs on batch_data once filtered
(app.py lines 121-124 and 242-260): min and max Timestamp, the span in
seconds divided by 60, and calculate_stats on the five displayed columns. -/
def summarizeBatchData (bd : BatchTable) : BatchSummary :=
  { start_time := seriesMin (bd.map (fun r => r.timestamp))
    end_time := seriesMax (bd.map (fun r => r.timestamp))
    duration_minutes :=
      match seriesMax (bd.map (fun r => r.timestamp)),
            seriesMin (bd.map (fun r => r.timestamp)) with
      | some e, some s => some ((e - s) / 60)
      | _, _ => none
    stats_temp := calculate_stats (colVals bd .processTemp)
    stats_p2 := calculate_stats (colVals bd .outletSteamPressure)
    stats_p1 := calculate_stats (colVals bd .inletSteamPressure)
    stats_flow := calculate_stats (colVals bd .steamFlowRate)
    stats_valve := calculate_stats (colVals bd .qualSteamValveOpening) }

/-- summarize(table, batch_id): restrict to the batch, then derive the
summary (app.py lines 119-124, 242-260). -/
def summarize (df : BatchTable) (b : ℤ) : BatchSummary :=
  summarizeBatchData (filterBatch df b)

/-- Which statistics record (if any) the summary holds for a variable:
main builds stat cards for exactly five of the seven tracked variables
(app.py lines 242-260); the two setpoints get none. -/
def statsOf (s : BatchSummary) : PVar → Option StatsView
  | .processTemp => some s.stats_temp
  | .processTempSP => none
  | .pressureSP => none
  | .inletSteamPressure => some s.stats_p1
  | .outletSteamPressure => some s.stats_p2
  | .steamFlowRate => some s.stats_flow
  | .qualSteamValveOpening => some s.stats_valve

/-- The five variables that receive statistics cards. -/
def displayedVars : List PVar :=
  [.processTemp, .outletSteamPressure, .inletSteamPressure,
   .steamFlowRate, .qualSteamValveOpening]

/-- The per-batch series handed to each chart trace (app.py lines 167-197):
go.Scatter(x=batch_data[Timestamp], y=batch_data[v]) pairs the filtered
rows' timestamps with their values in row order; no sorting is applied. -/
def seriesFor (df : BatchTable) (b : ℤ) (v : PVar) : List (ℚ × Cell) :=
  (filterBatch df b).map (fun r => (r.timestamp, r.val v))

/-! ## Concrete tables used as test inputs -/

/-- A small table: batch 1 has two readings 120 seconds apart, batch 2 has
one reading whose outlet pressure (and inlet pressure) cells are missing. -/
def Tc1 : BatchTable :=
  [⟨10, 1, some 70, none, none, none, some 2, some 100, some 50⟩,
   ⟨130, 1, some 72, none, none, none, some 3, some 110, some 55⟩,
   ⟨70, 2, some 71, none, none, none, none, none, none⟩]

/-- A table whose batch-1 rows appear in decreasing Timestamp order. -/
def Tc2 : BatchTable :=
  [⟨120, 1, some 5, none, none, none, none, none, none⟩,
   ⟨60, 1, some 7, none, none, none, none, none, none⟩]

/-- A raw source present on disk but lacking the Timestamp column. -/
def srcNoTimestampCol : RawFrame :=
  { columns := ["batch_id", "Process Temp"],
    rows := [[("batch_id", some 1), ("Process Temp", some 70)]] }

/-- A raw source present on disk with a Timestamp column but no batch_id
column. -/
def srcNoBatchCol : RawFrame :=
  { columns := ["Timestamp", "Process Temp"],
    rows := [[("Timestamp", some 10), ("Process Temp", some 70)]] }

/-! ## Helper lemmas -/

theorem seriesMin_eq_none_iff (l : List ℚ) : seriesMin l = none ↔ l = [] := by
  cases l with
  | nil => simp [seriesMin]
  | cons x xs =>
    simp only [seriesMin]
    cases seriesMin xs <;> simp

theorem seriesMax_eq_none_iff (l : List ℚ) : seriesMax l = none ↔ l = [] := by
  cases l with
  | nil => simp [seriesMax]
  | cons x xs =>
    simp only [seriesMax]
    cases seriesMax xs <;> simp

theorem seriesMin_spec (l : List ℚ) (m : ℚ) (h : seriesMin l = some m) :
    m ∈ l ∧ ∀ x ∈ l, m ≤ x := by
  induction l generalizing m with
  | nil => simp [seriesMin] at h
  | cons x xs ih =>
    simp only [seriesMin] at h
    cases hxs : seriesMin xs with
    | none =>
      rw [hxs] at h
      have hx : xs = [] := (seriesMin_eq_none_iff xs).mp hxs
      subst hx
      injection h with h
      subst h
      simp
    | some m' =>
      rw [hxs] at h
      injection h with h
      subst h
      obtain ⟨hm', hb⟩ := ih m' hxs
      constructor
      · rcases min_cases x m' with ⟨he, _⟩ | ⟨he, _⟩
        · rw [he]; exact List.mem_cons_self _ _
        · rw [he]; exact List.mem_cons_of_mem _ hm'
      · intro y hy
        rcases List.mem_cons.mp hy with rfl | hy
        · exact min_le_left _ _
        · exact le_trans (min_le_right _ _) (hb y hy)

theorem seriesMax_spec (l : List ℚ) (m : ℚ) (h : seriesMax l = some m) :
    m ∈ l ∧ ∀ x ∈ l, x ≤ m := by
  induction l generalizing m with
  | nil => simp [seriesMax] at h
  | cons x xs ih =>
    simp only [seriesMax] at h
    cases hxs : seriesMax xs with
    | none =>
      rw [hxs] at h
      have hx : xs = [] := (seriesMax_eq_none_iff xs).mp hxs
      subst hx
      injection h with h
      subst h
      simp
    | some m' =>
      rw [hxs] at h
      injection h with h
      subst h
      obtain ⟨hm', hb⟩ := ih m' hxs
      constructor
      · rcases max_cases x m' with ⟨he, _⟩ | ⟨he, _⟩
        · rw [he]; exact List.mem_cons_self _ _
        · rw [he]; exact List.mem_cons_of_mem _ hm'
      · intro y hy
        rcases List.mem_cons.mp hy with rfl | hy
        · exact le_max_left _ _
        · exact le_trans (hb y hy) (le_max_right _ _)

theorem mem_filterBatch (T : BatchTable) (b : ℤ) (r : Reading) :
    r ∈ filterBatch T b ↔ r ∈ T ∧ r.batch_id = b := by
  simp [filterBatch, List.mem_filter]

theorem valids_map_some (l : List ℚ) : valids (l.map some) = l := by
  simp [valids]

theorem calculate_stats_congr {s t : List Cell} (h : valids s = valids t) :
    calculate_stats s = calculate_stats t := by
  unfold calculate_stats
  rw [h]

theorem calculate_stats_of_valids_nil {s : List Cell} (h : valids s = []) :
    calculate_stats s = nanStats := by
  unfold calculate_stats
  rw [h]
  rfl

theorem dot_mem_decimalString (n : ℤ) (k : ℕ) : ('.' : Char) ∈ (decimalString n k).data := by
  unfold decimalString
  rw [String.data_append, String.data_append, String.data_append]
  refine List.mem_append.mpr (.inl (List.mem_append.mpr (.inr ?_)))
  decide

theorem decimalString_ne_nan (n : ℤ) (k : ℕ) : decimalString n k ≠ "nan" := by
  intro h
  have hd := dot_mem_decimalString n k
  rw [h] at hd
  exact absurd hd (by decide)

theorem fmtCell_eq_nan_iff (k : ℕ) (o : Option ℚ) : fmtCell k o = "nan" ↔ o = none := by
  cases o with
  | none => simp [fmtCell]
  | some q =>
    simp only [fmtCell, fmtFixed]
    constructor
    · intro h; exact absurd h (decimalString_ne_nan _ _)
    · intro h; cases h

theorem fmtStd_eq_nan_iff (o : Option ℚ) : fmtStd o = "nan" ↔ o = none := by
  cases o with
  | none => simp [fmtStd]
  | some q =>
    simp only [fmtStd]
    constructor
    · intro h; exact absurd h (decimalString_ne_nan _ _)
    · intro h; cases h

theorem statsOf_displayed (T : BatchTable) (b : ℤ) (v : PVar) (hv : v ∈ displayedVars) :
    statsOf (summarize T b) v = some (calculate_stats (batchColumn T b v)) := by
  fin_cases hv <;> rfl

theorem meanVals_char (v : List ℚ) (q : ℚ) (h : meanVals v = some q) :
    v ≠ [] ∧ q * v.length = v.sum := by
  unfold meanVals at h
  split at h
  · cases h
  · next hlen =>
    injection h with h
    subst h
    have hne : v ≠ [] := by
      intro hv; subst hv; exact hlen rfl
    refine ⟨hne, ?_⟩
    have hq : ((v.length : ℚ)) ≠ 0 := by
      exact_mod_cast hlen
    field_simp

theorem varVals_char (v : List ℚ) (q : ℚ) (h : varVals v = some q) :
    2 ≤ v.length ∧
      q * ((v.length : ℚ) - 1) = ((v.map (fun x => (x - v.sum / v.length) ^ 2)).sum) := by
  unfold varVals at h
  split at h
  · cases h
  · next hlen =>
    injection h with h
    subst h
    have h2 : 2 ≤ v.length := by omega
    refine ⟨h2, ?_⟩
    have hq : ((v.length : ℚ) - 1) ≠ 0 := by
      have : (2 : ℚ) ≤ (v.length : ℚ) := by exact_mod_cast h2
      intro hz
      nlinarith
    field_simp

/-! ## Claim theorems -/

/-- Claim C8 (confirmed): listBatchIds returns each distinct batch_id value
exactly once, sorted ascending in the numeric order of the identifier type:
the result is sorted, duplicate-free, and contains exactly the identifiers
occurring in the table. -/
theorem listBatchIds_sorted_unique (T : BatchTable) :
    (listBatchIds T).Sorted (· ≤ ·) ∧ (listBatchIds T).Nodup ∧
      ∀ b : ℤ, b ∈ listBatchIds T ↔ ∃ r ∈ T, r.batch_id = b := by
  refine ⟨List.sorted_insertionSort _ _, ?_, ?_⟩
  · exact ((List.perm_insertionSort _ _).nodup_iff).mpr (List.nodup_dedup _)
  · intro b
    rw [listBatchIds, (List.perm_insertionSort _ _).mem_iff, List.mem_dedup,
      List.mem_map]

/-- Claim C2 counterexample: on a table whose batch-1 rows appear in
decreasing Timestamp order, the series handed to charting is NOT sorted by
Timestamp ascending; it is exactly the input-order pairs. -/
theorem seriesFor_unsorted_counterexample :
    seriesFor Tc2 1 .processTemp = [(120, some 5), (60, some 7)] ∧
      ¬ List.Pairwise (fun p q : ℚ × Cell => p.1 ≤ q.1)
        (seriesFor Tc2 1 .processTemp) := by
  constructor
  · rfl
  · intro h
    have h' : List.Pairwise (fun p q : ℚ × Cell => p.1 ≤ q.1)
        [((120 : ℚ), some (5 : ℚ)), ((60 : ℚ), some (7 : ℚ))] := h
    have h2 := (List.pairwise_cons.mp h').1 (60, some 7) (by simp)
    norm_num at h2

/-- Claim C2 (amended): seriesFor hands charting the (Timestamp, value)
pairs of batch b in the input table's row order, with no sorting applied;
the series is ascending in Timestamp exactly when the batch's rows already
appear in ascending Timestamp order in the table. -/
theorem seriesFor_input_order (T : BatchTable) (b : ℤ) (v : PVar) :
    seriesFor T b v = (filterBatch T b).map (fun r => (r.timestamp, r.val v)) ∧
      (List.Pairwise (fun p q : ℚ × Cell => p.1 ≤ q.1) (seriesFor T b v) ↔
        List.Pairwise (fun r s : Reading => r.timestamp ≤ s.timestamp)
          (filterBatch T b)) := by
  refine ⟨rfl, ?_⟩
  unfold seriesFor
  rw [List.pairwise_map]

/-- Claim C1 counterexample: identifier 99 is not among Tc1's batch ids and
the restriction is empty, yet summarize does not fail with any BatchNotFound
error: it returns a degenerate summary with undefined times and all
statistics rendered nan. -/
theorem summarize_unknown_batch_counterexample :
    (99 : ℤ) ∉ listBatchIds Tc1 ∧ filterBatch Tc1 99 = [] ∧
      summarize Tc1 99 =
        ⟨none, none, none, nanStats, nanStats, nanStats, nanStats, nanStats⟩ := by
  refine ⟨by decide, rfl, rfl⟩

/-- Claim C1 (amended): summarize restricts the readings to exactly those
whose batch_id equals b; there is no BatchNotFound failure: when the
restriction is empty (b not among the table's batch identifiers) summarize
returns a degenerate summary with undefined (NaT) times and all statistics
rendered nan, rather than failing. -/
theorem summarize_restriction (T : BatchTable) (b : ℤ) :
    (∀ r : Reading, r ∈ filterBatch T b ↔ r ∈ T ∧ r.batch_id = b) ∧
      (filterBatch T b = [] →
        summarize T b =
          ⟨none, none, none, nanStats, nanStats, nanStats, nanStats, nanStats⟩) := by
  refine ⟨fun r => mem_filterBatch T b r, fun h => ?_⟩
  unfold summarize
  rw [h]
  rfl

/-- Claim C1 amended witness: the amended statement evaluated at the
concrete table Tc1 and the absent identifier 99. -/
theorem summarize_restriction_witness :
    summarize Tc1 99 =
      ⟨none, none, none, nanStats, nanStats, nanStats, nanStats, nanStats⟩ :=
  (summarize_restriction Tc1 99).2 rfl

theorem getColumn_of_mem {df : RawFrame} {c : String} (hc : c ∈ df.columns) :
    getColumn df c = .ok (df.rows.map (fun row => lookupCell row c)) := by
  unfold getColumn
  rw [if_pos hc]

theorem getColumn_of_not_mem {df : RawFrame} {c : String} (hc : c ∉ df.columns) :
    getColumn df c = .error (.keyError c) := by
  unfold getColumn
  rw [if_neg hc]

theorem load_data_attempt_some (df : RawFrame) :
    load_data_attempt (some df) =
      match getColumn df "Timestamp" with
      | .error e => .error e
      | .ok ts => .ok (setColumn df "Timestamp" (to_datetime ts)) := rfl

theorem load_data_some_of_mem (df : RawFrame) (hc : "Timestamp" ∈ df.columns) :
    load_data (some df) =
      .ok (some (setColumn df "Timestamp"
        (to_datetime (df.rows.map (fun row => lookupCell row "Timestamp"))))) := by
  unfold load_data
  rw [load_data_attempt_some, getColumn_of_mem hc]

theorem load_data_some_of_not_mem (df : RawFrame) (hc : "Timestamp" ∉ df.columns) :
    load_data (some df) = .error (.keyError "Timestamp") := by
  unfold load_data
  rw [load_data_attempt_some, getColumn_of_not_mem hc]

/-- Claim C4 counterexample: a present source lacking the Timestamp column
makes load_data raise an uncaught KeyError rather than return an explicit
SchemaInvalid failure result, and a present source lacking the batch_id
column loads successfully, with no schema failure at all. -/
theorem load_data_no_schema_check_counterexample :
    load_data (some srcNoTimestampCol) = .error (.keyError "Timestamp") ∧
      load_data (some srcNoBatchCol) = .ok (some srcNoBatchCol) := by
  constructor <;> rfl

/-- Claim C4 (amended): load_data yields the distinct missing-source signal
(None) exactly when the underlying data source is absent — never an
unrelated error in that case — so the presentation layer can show a
missing-data state; but a missing required column is not reported as an
explicit failure result: a source without the Timestamp column makes
load_data raise an uncaught KeyError. -/
theorem load_data_source_missing (source : Option RawFrame) :
    (load_data source = .ok none ↔ source = none) ∧
      ∀ df : RawFrame, source = some df → "Timestamp" ∉ df.columns →
        load_data source = .error (.keyError "Timestamp") := by
  constructor
  · cases source with
    | none => simp [load_data, load_data_attempt, read_csv]
    | some df =>
      constructor
      · intro h
        exfalso
        by_cases hc : "Timestamp" ∈ df.columns
        · rw [load_data_some_of_mem df hc] at h
          simp at h
        · rw [load_data_some_of_not_mem df hc] at h
          simp at h
      · intro h
        cases h
  · rintro df rfl hc
    exact load_data_some_of_not_mem df hc

/-- Claim C4 amended witness: the amended statement evaluated at the absent
source and at the concrete source lacking the Timestamp column. -/
theorem load_data_source_missing_witness :
    load_data none = .ok none ∧
      load_data (some srcNoTimestampCol) = .error (.keyError "Timestamp") :=
  ⟨(load_data_source_missing none).1.mpr rfl,
   (load_data_source_missing (some srcNoTimestampCol)).2 srcNoTimestampCol rfl
     (by decide)⟩

/-- Claim C3 counterexample: batch 1 is present in Tc1, yet the summary
contains no statistics at all for the tracked variables Process Temp SP and
Pressure SP: main builds statistics cards only for the other five. -/
theorem setpoint_stats_missing_counterexample :
    (1 : ℤ) ∈ listBatchIds Tc1 ∧
      statsOf (summarize Tc1 1) .processTempSP = none ∧
      statsOf (summarize Tc1 1) .pressureSP = none :=
  ⟨by decide, rfl, rfl⟩

/-- Claim C3 (amended): for every batch and each of the five displayed
variables (Process Temp, Outlet Steam Pressure, Inlet Steam Pressure,
Steam Flow Rate, QualSteam Valve Opening) the summary contains the full
five-statistic record, computed over only the non-missing values of that
variable within the batch, with the standard deviation normalized by N-1;
the two setpoint variables are charted but receive no statistics. -/
theorem displayed_variable_stats (T : BatchTable) (b : ℤ) (v : PVar)
    (hv : v ∈ displayedVars) :
    statsOf (summarize T b) v = some (calculate_stats (batchColumn T b v)) ∧
      calculate_stats (batchColumn T b v) =
        calculate_stats ((valids (batchColumn T b v)).map some) ∧
      (∀ q : ℚ, pmean (batchColumn T b v) = some q →
        valids (batchColumn T b v) ≠ [] ∧
          q * (valids (batchColumn T b v)).length =
            (valids (batchColumn T b v)).sum) ∧
      (∀ q : ℚ, pvar (batchColumn T b v) = some q →
        2 ≤ (valids (batchColumn T b v)).length ∧
          q * (((valids (batchColumn T b v)).length : ℚ) - 1) =
            ((valids (batchColumn T b v)).map
              (fun x => (x - (valids (batchColumn T b v)).sum /
                (valids (batchColumn T b v)).length) ^ 2)).sum) ∧
      (∀ q : ℚ, pmax (batchColumn T b v) = some q →
        q ∈ valids (batchColumn T b v) ∧
          ∀ x ∈ valids (batchColumn T b v), x ≤ q) ∧
      (∀ q : ℚ, pmin (batchColumn T b v) = some q →
        q ∈ valids (batchColumn T b v) ∧
          ∀ x ∈ valids (batchColumn T b v), q ≤ x) := by
  refine ⟨statsOf_displayed T b v hv,
    calculate_stats_congr (valids_map_some _).symm,
    fun q hq => meanVals_char _ q hq,
    fun q hq => varVals_char _ q hq,
    fun q hq => seriesMax_spec _ q hq,
    fun q hq => seriesMin_spec _ q hq⟩

/-- Claim C3 amended witness: the amended statement evaluated at Tc1,
batch 1, variable Process Temp, whose valid values are 70 and 72 with
mean 71. -/
theorem displayed_variable_stats_witness :
    statsOf (summarize Tc1 1) .processTemp =
        some (calculate_stats (batchColumn Tc1 1 .processTemp)) ∧
      valids (batchColumn Tc1 1 .processTemp) ≠ [] ∧
        (71 : ℚ) * (valids (batchColumn Tc1 1 .processTemp)).length =
          (valids (batchColumn Tc1 1 .processTemp)).sum :=
  ⟨(displayed_variable_stats Tc1 1 .processTemp (by decide)).1,
   (displayed_variable_stats Tc1 1 .processTemp (by decide)).2.2.1 71
     (by with_unfolding_all rfl)⟩

/-- Claim C5 (confirmed): when a displayed variable has zero valid samples
within a batch, all five of its statistics are the undefined marker nan; the
outcome is distinguishable from the one-valid-sample case, where only the
standard deviation is nan and the mean is a rendered number. -/
theorem no_valid_samples (T : BatchTable) (b : ℤ) (v : PVar)
    (hv : v ∈ displayedVars) (h : valids (batchColumn T b v) = []) :
    statsOf (summarize T b) v = some nanStats ∧
      ∀ (s : List Cell) (x : ℚ), valids s = [x] →
        (calculate_stats s).std = "nan" ∧ (calculate_stats s).mean = fmtFixed 2 x ∧
          calculate_stats s ≠ nanStats := by
  refine ⟨?_, ?_⟩
  · rw [statsOf_displayed T b v hv, calculate_stats_of_valids_nil h]
  · intro s x hx
    have hmean : meanVals [x] = some x := by simp [meanVals]
    refine ⟨?_, ?_, ?_⟩
    · show fmtStd (varVals (valids s)) = "nan"
      rw [hx]
      rfl
    · show fmtCell 2 (meanVals (valids s)) = fmtFixed 2 x
      rw [hx, hmean]
      rfl
    · intro hcontra
      have hm : (calculate_stats s).mean = "nan" := by rw [hcontra]; rfl
      rw [show (calculate_stats s).mean = fmtCell 2 (meanVals (valids s)) from rfl,
        hx, hmean] at hm
      exact decimalString_ne_nan _ _ hm

/-- Claim C5 witness: in Tc1 batch 2 every Outlet Steam Pressure cell is
missing, and the summary statistics for it are all nan. -/
theorem no_valid_samples_witness :
    statsOf (summarize Tc1 2) .outletSteamPressure = some nanStats :=
  (no_valid_samples Tc1 2 .outletSteamPressure (by decide) rfl).1

/-- Claim C6 (confirmed): on a series with exactly one valid sample x the
statistics computation is defined and yields mean, median, max and min all
equal to x (rendered from the exact value x), while the standard deviation
is the undefined sentinel nan under the N-1 convention. -/
theorem single_sample_stats (s : List Cell) (x : ℚ) (h : valids s = [x]) :
    pmean s = some x ∧ pmedian s = some x ∧ pmax s = some x ∧ pmin s = some x ∧
      pvar s = none ∧
      calculate_stats s =
        ⟨fmtFixed 2 x, fmtFixed 2 x, fmtFixed 2 x, fmtFixed 2 x, "nan"⟩ := by
  have hmean : meanVals [x] = some x := by simp [meanVals]
  have hmed : medianVals [x] = some x := by
    with_unfolding_all rfl
  have hmax : seriesMax [x] = some x := rfl
  have hmin : seriesMin [x] = some x := rfl
  have hvar : varVals [x] = none := rfl
  refine ⟨?_, ?_, ?_, ?_, ?_, ?_⟩
  · show meanVals (valids s) = some x
    rw [h, hmean]
  · show medianVals (valids s) = some x
    rw [h, hmed]
  · show seriesMax (valids s) = some x
    rw [h, hmax]
  · show seriesMin (valids s) = some x
    rw [h, hmin]
  · show varVals (valids s) = none
    rw [h, hvar]
  · unfold calculate_stats
    rw [h, hmean, hmed, hmax, hmin, hvar]
    rfl

/-- Claim C6 witness: the single-sample statement evaluated on the concrete
series whose only valid sample is 7. -/
theorem single_sample_stats_witness :
    pmean [none, some (7 : ℚ)] = some 7 ∧ pvar [none, some (7 : ℚ)] = none :=
  ⟨(single_sample_stats [none, some 7] 7 rfl).1,
   (single_sample_stats [none, some 7] 7 rfl).2.2.2.2.1⟩

/-- Claim C7 counterexample: the mean of the series [0, 0, 1] is exactly
1/3, but calculate_stats returns the display string "0.33": the engine
returns a value rounded to two decimal places, not the full-precision
number (1/3 is not 33/100). -/
theorem full_precision_counterexample :
    pmean [some 0, some 0, some (1 : ℚ)] = some (1 / 3) ∧
      (calculate_stats [some 0, some 0, some (1 : ℚ)]).mean = "0.33" ∧
      (1 : ℚ) / 3 ≠ 33 / 100 := by
  refine ⟨by with_unfolding_all rfl, by with_unfolding_all rfl, by norm_num⟩

/-- Claim C7 (amended): calculate_stats returns display-formatted strings,
not full-precision numbers: the mean is rendered as the decimal string of
the mean rounded to two decimal places (so the rendered value differs from
the true mean by at most 1/200), and rounding for display thus happens
inside the engine rather than the presentation layer. -/
theorem stats_rounded_to_display (s : List Cell) (q : ℚ) (h : pmean s = some q) :
    (calculate_stats s).mean = decimalString (round (q * 100)) 2 ∧
      |((round (q * 100) : ℚ)) / 100 - q| ≤ 1 / 200 := by
  constructor
  · show fmtCell 2 (meanVals (valids s)) = _
    rw [show meanVals (valids s) = some q from h]
    show decimalString (round (q * 10 ^ 2)) 2 = _
    norm_num
  · have h2 : |((round (q * 100) : ℚ)) - q * 100| ≤ 1 / 2 := by
      rw [abs_sub_comm]
      exact abs_sub_round (q * 100)
    have h3 : ((round (q * 100) : ℚ)) / 100 - q =
        (((round (q * 100) : ℚ)) - q * 100) / 100 := by ring
    rw [h3, abs_div]
    rw [show |(100 : ℚ)| = 100 from by norm_num]
    linarith

/-- Claim C7 amended witness: the amended statement evaluated on the
series [0, 0, 1] with mean 1/3. -/
theorem stats_rounded_to_display_witness :
    (calculate_stats [some 0, some 0, some (1 : ℚ)]).mean =
        decimalString (round ((1 : ℚ) / 3 * 100)) 2 ∧
      |((round ((1 : ℚ) / 3 * 100) : ℚ)) / 100 - 1 / 3| ≤ 1 / 200 :=
  stats_rounded_to_display [some 0, some 0, some 1] (1 / 3)
    (by with_unfolding_all rfl)

/-- Claim C9 (confirmed): the summary's start and end times are the minimum
and maximum Timestamp over the batch's readings, duration_minutes is their
difference divided by 60, multiplying it back by 60 gives exactly the
start-to-end span in seconds, and the duration is zero whenever all of the
batch's timestamps coincide (in particular for a single sample). -/
theorem summarize_time_window (T : BatchTable) (b : ℤ) (s e : ℚ)
    (hs : (summarize T b).start_time = some s)
    (he : (summarize T b).end_time = some e) :
    s ∈ (filterBatch T b).map (fun r => r.timestamp) ∧
    e ∈ (filterBatch T b).map (fun r => r.timestamp) ∧
    (∀ t ∈ (filterBatch T b).map (fun r => r.timestamp), s ≤ t ∧ t ≤ e) ∧
    (summarize T b).duration_minutes = some ((e - s) / 60) ∧
    (e - s) / 60 * 60 = e - s ∧
    ((∀ t ∈ (filterBatch T b).map (fun r => r.timestamp), t = s) →
      (summarize T b).duration_minutes = some 0) := by
  have hs' : seriesMin ((filterBatch T b).map (fun r => r.timestamp)) = some s := hs
  have he' : seriesMax ((filterBatch T b).map (fun r => r.timestamp)) = some e := he
  obtain ⟨hsm, hsb⟩ := seriesMin_spec _ _ hs'
  obtain ⟨hem, heb⟩ := seriesMax_spec _ _ he'
  have hdur : (summarize T b).duration_minutes = some ((e - s) / 60) := by
    have hmatch : (summarize T b).duration_minutes =
        match seriesMax ((filterBatch T b).map (fun r => r.timestamp)),
              seriesMin ((filterBatch T b).map (fun r => r.timestamp)) with
        | some e', some s' => some ((e' - s') / 60)
        | _, _ => none := rfl
    rw [hmatch, hs', he']
  refine ⟨hsm, hem, fun t ht => ⟨hsb t ht, heb t ht⟩, hdur, ?_, ?_⟩
  · exact div_mul_cancel₀ _ (by norm_num)
  · intro hall
    have hes : e = s := hall e hem
    rw [hdur, hes]
    norm_num

/-- Claim C9 witness: the time-window statement evaluated at Tc1 batch 1,
whose timestamps are 10 and 130 seconds, giving a 2-minute duration. -/
theorem summarize_time_window_witness :
    (10 : ℚ) ∈ (filterBatch Tc1 1).map (fun r => r.timestamp) ∧
    (130 : ℚ) ∈ (filterBatch Tc1 1).map (fun r => r.timestamp) ∧
    (∀ t ∈ (filterBatch Tc1 1).map (fun r => r.timestamp),
      (10 : ℚ) ≤ t ∧ t ≤ 130) ∧
    (summarize Tc1 1).duration_minutes = some (((130 : ℚ) - 10) / 60) ∧
    ((130 : ℚ) - 10) / 60 * 60 = (130 : ℚ) - 10 ∧
    ((∀ t ∈ (filterBatch Tc1 1).map (fun r => r.timestamp), t = (10 : ℚ)) →
      (summarize Tc1 1).duration_minutes = some 0) :=
  summarize_time_window Tc1 1 10 130 (by with_unfolding_all rfl)
    (by with_unfolding_all rfl)

/-- Claim C10 (confirmed): calculate_stats is total on every cell series,
including the empty and the all-missing series: each of its five fields is
a string, an undefined statistic renders exactly as the string nan, and a
defined statistic never renders as nan. -/
theorem calculate_stats_total (s : List Cell) :
    (valids s = [] → calculate_stats s = nanStats) ∧
    ((calculate_stats s).mean = "nan" ↔ pmean s = none) ∧
    ((calculate_stats s).median = "nan" ↔ pmedian s = none) ∧
    ((calculate_stats s).max = "nan" ↔ pmax s = none) ∧
    ((calculate_stats s).min = "nan" ↔ pmin s = none) ∧
    ((calculate_stats s).std = "nan" ↔ pvar s = none) :=
  ⟨fun h => calculate_stats_of_valids_nil h,
   fmtCell_eq_nan_iff 2 _, fmtCell_eq_nan_iff 2 _, fmtCell_eq_nan_iff 2 _,
   fmtCell_eq_nan_iff 2 _, fmtStd_eq_nan_iff _⟩

/-- Claim C10 witness: the totality statement evaluated on the all-missing
one-row series. -/
theorem calculate_stats_total_witness :
    calculate_stats [none] = nanStats :=
  (calculate_stats_total [none]).1 rfl
